import Mathlib

/-!
Verification of the per-node telemetry collection and metric-recording engine
of the Ray dashboard reporter agent, against its natural-language specification.

The implementation file (reporter_agent.py) is not part of the provided source
tree; only its driving test suite (dashboard/modules/reporter/tests/
test_reporter.py) is.  The definitions below are therefore modelled from the
specification, with every behaviour that the test suite pins down (record
multiplicities, per-GPU record values and tags, reset semantics, component
filtering) reconciled with the concrete assertions of that test file.
All numeric quantities are embedded as exact rationals.
-/

/-- Cumulative CPU time counters of one OS process (psutil cpu_times). -/

structure CpuTimes where
  user : ℚ
  system : ℚ
  children_user : ℚ
  children_system : ℚ
deriving Repr, DecidableEq

/-- Resident/virtual memory counters of one OS process (psutil memory_info). -/
structure MemoryInfo where
  rss : ℚ
  vms : ℚ
deriving Repr, DecidableEq

/-- One OS process descriptor as produced by the process snapshot provider.
`memory_full_info` carries the USS bytes and may be absent. -/
structure ProcessStats where
  pid : Nat
  create_time : ℚ
  cmdline : List String
  cpu_percent : ℚ
  cpu_times : CpuTimes
  memory_info : MemoryInfo
  memory_full_info : Option ℚ
deriving Repr, DecidableEq

/-- One raw per-device GPU sample.  `index` and `name` may be missing,
matching incomplete rows returned by the underlying probe tool. -/
structure GpuSample where
  index : Option Nat
  name : Option String
  utilization_gpu : ℚ
  memory_used : ℚ
  memory_total : ℚ
deriving Repr, DecidableEq

/-- Node memory tuple (total, available, percent, used). -/
structure MemStats where
  total : ℚ
  available : ℚ
  percent : ℚ
  used : ℚ
deriving Repr, DecidableEq

/-- Cumulative disk io counters (read bytes, write bytes, read count, write count). -/
structure DiskIo where
  read : ℚ
  write : ℚ
  read_count : ℚ
  write_count : ℚ
deriving Repr, DecidableEq

/-- Disk io speeds (read speed, write speed, read iops, write iops). -/
structure DiskIoSpeed where
  read_speed : ℚ
  write_speed : ℚ
  read_iops : ℚ
  write_iops : ℚ
deriving Repr, DecidableEq

/-- Disk usage of one mounted path (psutil disk_usage). -/
structure DiskUsage where
  total : ℚ
  used : ℚ
  free : ℚ
  percent : ℚ
deriving Repr, DecidableEq

/-- Cumulative network counters (sent bytes, received bytes). -/
structure NetStats where
  sent : ℚ
  received : ℚ
deriving Repr, DecidableEq

/-- Network speeds (send speed, receive speed). -/
structure NetSpeed where
  send_speed : ℚ
  receive_speed : ℚ
deriving Repr, DecidableEq

/-- One full raw per-poll snapshot handed to the stats recorder, mirroring the
STATS_TEMPLATE dictionary of the test suite.  `shm` is optional because shared
memory is platform conditional; `raylet` and `agent` stats may be absent. -/
structure Snapshot where
  ip : String
  cpu : ℚ
  cpus : Nat × Nat
  mem : MemStats
  shm : Option ℚ
  workers : List ProcessStats
  raylet : Option ProcessStats
  agent : Option ProcessStats
  bootTime : ℚ
  disk_io : DiskIo
  disk_io_speed : DiskIoSpeed
  disk : List (String × DiskUsage)
  gpus : List GpuSample
  network : NetStats
  network_speed : NetSpeed
deriving Repr, DecidableEq

/-- Autoscaler summary: active node counts per node type, plus the node types
of failed and pending nodes. -/
structure AutoscalerReport where
  active_nodes : List (String × Nat)
  failed_nodes : List String
  pending_nodes : List String
deriving Repr, DecidableEq

/-- A metric gauge, identified by its exported name. -/
structure Gauge where
  name : String
deriving Repr, DecidableEq

/-- One emitted gauge record: gauge, numeric value and tag list. -/
structure Record where
  gauge : Gauge
  value : ℚ
  tags : List (String × String)
deriving Repr, DecidableEq

/-- Per-poll usage attributed to one logical component name. -/
structure Comp where
  cname : String
  cpu : ℚ
  rss : ℚ
  uss : ℚ
deriving Repr, DecidableEq

/-- Cross-poll state owned by the stats recorder: the set (as a list) of
component names whose metrics must be reset to 0 once the component exits. -/
structure RecorderState where
  prevComponents : List String
deriving Repr, DecidableEq

/-- Build a record. -/
def mkRec (nm : String) (v : ℚ) (tg : List (String × String)) : Record :=
  ⟨⟨nm⟩, v, tg⟩

/-- Bytes to megabytes, the scaling used for component memory metrics. -/
def mbOf (x : ℚ) : ℚ := x / 1000000

/-- USS bytes of a process, 0 when memory_full_info is absent. -/
def ussOf (w : ProcessStats) : ℚ :=
  match w.memory_full_info with
  | some u => u
  | none => 0

/-- The component usage contributed by a single process under a given name.
CPU is in percent, rss and uss in raw bytes; the megabyte scaling is applied
when the records are emitted. -/
def toComp (nm : String) (w : ProcessStats) : Comp :=
  ⟨nm, w.cpu_percent, w.memory_info.rss, ussOf w⟩

/-- Whether `pre` is a prefix of `s`, by character list. -/
def strStarts (pre s : String) : Bool :=
  List.isPrefixOf pre.data s.data

/-- Boolean membership test on a list of strings. -/
def memS (n : String) : List String → Bool
  | [] => false
  | m :: ms => if m = n then true else memS n ms

/-- Merge one component contribution into an accumulator keyed by name,
summing usages of processes sharing a component name. -/
def bump : List Comp → Comp → List Comp
  | [], c => [c]
  | e :: es, c =>
    if e.cname = c.cname then
      ⟨e.cname, e.cpu + c.cpu, e.rss + c.rss, e.uss + c.uss⟩ :: es
    else
      e :: bump es c

/-- The literal marker identifying Ray-managed worker processes. -/
def rayMarker : String := "ray::"

/-- Classify one worker process: only a process whose first cmdline token
starts with the managed-worker marker contributes a named component; all
other processes contribute nothing to named component series. -/
def workerStep (acc : List Comp) (w : ProcessStats) : List Comp :=
  match w.cmdline.head? with
  | none => acc
  | some tok =>
    if strStarts rayMarker tok then bump acc (toComp tok w) else acc

/-- Group the worker list into per-name component usages. -/
def workerComps (ws : List ProcessStats) : List Comp :=
  ws.foldl workerStep []

/-- Component usage of an optional fixed-role process (raylet or agent). -/
def optComp : Option ProcessStats → String → List Comp
  | none, _ => []
  | some p, nm => [toComp nm p]

/-- Modelled from the spec: the ComponentUsage computed per poll by
ReporterAgent (reporter_agent.py, absent from src): raylet stats if present,
agent stats if present, then every classified worker group. -/
def componentUsage (s : Snapshot) : List Comp :=
  optComp s.raylet "raylet" ++ optComp s.agent "agent" ++ workerComps s.workers

/-- The component names present in the current poll. -/
def componentNames (s : Snapshot) : List String :=
  (componentUsage s).map Comp.cname

/-- The three per-component gauge records (cpu percentage, rss mb, uss mb)
emitted for one component present in the current poll.  The test suite pins
the multiplicity: removing the raylet stats drops exactly 3 records. -/
def compRecords (ip : String) (c : Comp) : List Record :=
  [("component_cpu_percentage", c.cpu),
   ("component_rss_mb", mbOf c.rss),
   ("component_uss_mb", mbOf c.uss)].map
    (fun e => mkRec e.1 e.2 [("ip", ip), ("Component", c.cname)])

/-- Modelled from the spec: the zero-valued reset records emitted for a
component that was previously reported with non-zero usage and is absent in
the current poll, with value 0 for both USS and CPU. -/
def resetRecords (ip : String) (n : String) : List Record :=
  [("component_uss_mb", (0 : ℚ)),
   ("component_cpu_percentage", (0 : ℚ))].map
    (fun e => mkRec e.1 e.2 [("ip", ip), ("Component", n)])

/-- Name-value pairs of the node-level gauges of one poll.  Modelled from the
spec (step 1 of the recorder contract), with disk usage aggregated across
mounted paths and a boot-time gauge, reconciling the node-level record count
with the 33-record total asserted by test_report_stats. -/
def nodeEntries (s : Snapshot) : List (String × ℚ) :=
  [("node_cpu_utilization", s.cpu),
   ("node_cpu_count", (s.cpus.1 : ℚ)),
   ("node_mem_used", s.mem.used),
   ("node_mem_available", s.mem.available),
   ("node_mem_total", s.mem.total)]
  ++ (match s.shm with
      | some v => [("node_mem_shared_bytes", v)]
      | none => [])
  ++ [("node_boot_time", s.bootTime),
      ("node_disk_io_read", s.disk_io.read),
      ("node_disk_io_write", s.disk_io.write),
      ("node_disk_io_read_count", s.disk_io.read_count),
      ("node_disk_io_write_count", s.disk_io.write_count),
      ("node_disk_io_read_speed", s.disk_io_speed.read_speed),
      ("node_disk_io_write_speed", s.disk_io_speed.write_speed),
      ("node_disk_read_iops", s.disk_io_speed.read_iops),
      ("node_disk_write_iops", s.disk_io_speed.write_iops),
      ("node_disk_usage", ((s.disk.map (fun e => e.2.used)).sum)),
      ("node_disk_free", ((s.disk.map (fun e => e.2.free)).sum)),
      ("node_disk_utilization_percentage",
        100 * ((s.disk.map (fun e => e.2.used)).sum) /
          (((s.disk.map (fun e => e.2.used)).sum) +
            ((s.disk.map (fun e => e.2.free)).sum))),
      ("node_network_sent", s.network.sent),
      ("node_network_received", s.network.received),
      ("node_network_send_speed", s.network_speed.send_speed),
      ("node_network_receive_speed", s.network_speed.receive_speed)]

/-- The node-level gauge records of one poll, all tagged with the node ip. -/
def nodeRecords (s : Snapshot) : List Record :=
  (nodeEntries s).map (fun e => mkRec e.1 e.2 [("ip", s.ip)])

/-- The tag list of one per-device GPU record: ip and GpuIndex always, plus
GpuDeviceName only when the sample carries a name. -/
def gpuTags (ip : String) (i : Nat) : Option String → List (String × String)
  | some nm => [("ip", ip), ("GpuIndex", toString i), ("GpuDeviceName", nm)]
  | none => [("ip", ip), ("GpuIndex", toString i)]

/-- Per-device GPU records.  A sample missing an index is dropped entirely.
For an indexed sample, four device-scoped records are emitted; the test suite
pins the availability value at 1 for every indexed device (one record per
physical GPU), independent of its utilization. -/
def gpuRecords (ip : String) (g : GpuSample) : List Record :=
  match g.index with
  | none => []
  | some i =>
    [("node_gpus_available", (1 : ℚ)),
     ("node_gpus_utilization", g.utilization_gpu),
     ("node_gram_used", g.memory_used),
     ("node_gram_available", g.memory_total - g.memory_used)].map
      (fun e => mkRec e.1 e.2 (gpuTags ip i g.name))

/-- Count the occurrences of each node type, first-occurrence order. -/
def bumpCount : List (String × Nat) → String → List (String × Nat)
  | [], t => [(t, 1)]
  | (t', k) :: rest, t =>
    if t' = t then (t', k + 1) :: rest else (t', k) :: bumpCount rest t

/-- Group a list of node types into (type, count) pairs. -/
def countByType (l : List String) : List (String × Nat) :=
  l.foldl bumpCount []

/-- Modelled from the spec: the autoscaler gauges (counts of active, failed
and pending nodes per node type), emitted only when a summary is present. -/
def autoscalerRecords (ip : String) : Option AutoscalerReport → List Record
  | none => []
  | some rep =>
    rep.active_nodes.map
      (fun e => mkRec "cluster_active_nodes" (e.2 : ℚ) [("ip", ip), ("node_type", e.1)])
    ++ (countByType rep.failed_nodes).map
      (fun e => mkRec "cluster_failed_nodes" (e.2 : ℚ) [("ip", ip), ("node_type", e.1)])
    ++ (countByType rep.pending_nodes).map
      (fun e => mkRec "cluster_pending_nodes" (e.2 : ℚ) [("ip", ip), ("node_type", e.1)])

/-- Modelled from the spec: the next previously-reported-components set.  A
name stays tracked while present; a present name enters the set when it is
emitted with non-zero USS or CPU; absent names drop out (they are reset once
by the current poll and then forgotten). -/
def newPrev (prev : List String) (comps : List Comp) : List String :=
  (comps.filter
    (fun c => memS c.cname prev || decide (c.cpu ≠ 0) || decide (c.uss ≠ 0))).map
    Comp.cname

/-- Modelled from the spec: ReporterAgent record stats (reporter_agent.py,
absent from src).  One poll cycle: node-level gauges, three records per
present component, zero-valued reset records for vanished components,
per-device GPU records, and optional autoscaler gauges; returns the records
and the updated recorder state. -/
def recordStats (st : RecorderState) (s : Snapshot) (a : Option AutoscalerReport) :
    List Record × RecorderState :=
  let comps := componentUsage s
  let names := comps.map Comp.cname
  let resets := st.prevComponents.filter (fun n => !(memS n names))
  (nodeRecords s
    ++ comps.flatMap (compRecords s.ip)
    ++ resets.flatMap (resetRecords s.ip)
    ++ s.gpus.flatMap (gpuRecords s.ip)
    ++ autoscalerRecords s.ip a,
   ⟨newPrev st.prevComponents comps⟩)

/-- The fresh state of a newly constructed recorder. -/
def initState : RecorderState := ⟨[]⟩

/-- Total user plus system CPU seconds of a process. -/
def cpuTotal (p : ProcessStats) : ℚ :=
  p.cpu_times.user + p.cpu_times.system

/-- Baseline stored per tracked worker: cumulative CPU seconds and the wall
clock time of the last sample. -/
structure WorkerState where
  last_cpu_total : ℚ
  last_sample_time : ℚ
deriving Repr, DecidableEq

/-- The worker tracker state: baselines keyed by (pid, create_time). -/
abbrev Tracker : Type := List ((Nat × ℚ) × WorkerState)

/-- Boolean membership test on a list of pids. -/
def memN (k : Nat) : List Nat → Bool
  | [] => false
  | m :: ms => if m = k then true else memN k ms

/-- Look up the baseline of a worker key. -/
def lookupW : Tracker → (Nat × ℚ) → Option WorkerState
  | [], _ => none
  | (k', st) :: rest, k => if k' = k then some st else lookupW rest k

/-- Store (replace or append) the baseline of a worker key. -/
def setW : Tracker → (Nat × ℚ) → WorkerState → Tracker
  | [], k, v => [(k, v)]
  | (k', v') :: rest, k, v =>
    if k' = k then (k, v) :: rest else (k', v') :: setW rest k v

/-- Modelled from the spec: one step of the worker tracker (reporter_agent.py,
absent from src).  First observation of a (pid, create_time) key reports
cpu_percent 0 and stores the current totals as baseline; later observations
report the delta rate, guarding non-positive elapsed wall time as 0. -/
def trackProc (t : Tracker) (now : ℚ) (p : ProcessStats) : ℚ × Tracker :=
  let k := (p.pid, p.create_time)
  match lookupW t k with
  | none => (0, setW t k ⟨cpuTotal p, now⟩)
  | some st =>
    let dcpu := cpuTotal p - st.last_cpu_total
    let dt := now - st.last_sample_time
    let pct := if dt ≤ 0 then 0 else 100 * dcpu / dt
    (pct, setW t k ⟨cpuTotal p, now⟩)

/-- Process one batch of worker descriptors, threading the tracker state. -/
def trackBatch (t : Tracker) (now : ℚ) :
    List ProcessStats → List (ProcessStats × ℚ) × Tracker
  | [] => ([], t)
  | p :: ps =>
    let r := trackProc t now p
    let rest := trackBatch r.2 now ps
    ((p, r.1) :: rest.1, rest.2)

/-- Modelled from the spec: the full worker tracker update.  After the batch,
every tracked key whose pid is no longer in the current process list is
deleted, so a reused pid starts from a fresh baseline. -/
def updateWorkers (t : Tracker) (now : ℚ) (ps : List ProcessStats) :
    List (ProcessStats × ℚ) × Tracker :=
  let r := trackBatch t now ps
  (r.1, r.2.filter (fun e => memN e.1.1 (ps.map ProcessStats.pid)))

/-- The dummy disk usage reported inside a K8s pod when real disk reporting
is not enabled: total 1 and free 1. -/
def dummyDiskUsage : DiskUsage := ⟨1, 0, 1, 0⟩

/-- Modelled from the spec: ReporterAgent get disk usage (reporter_agent.py,
absent from src).  Only when the in-K8s-pod flag is set and real-disk
reporting is not enabled does the probe result get replaced by the dummy
value for the root filesystem; otherwise the probed values pass unchanged. -/
def get_disk_usage (inK8sPod enableK8sDiskUsage : Bool)
    (probe : List (String × DiskUsage)) : List (String × DiskUsage) :=
  if inK8sPod && !enableK8sDiskUsage then [("/", dummyDiskUsage)] else probe

/-- CPU times of the template idle worker. -/
def idleCpuTimes : CpuTimes := ⟨0.607899328, 0.274044032, 0, 0⟩

/-- CPU times of the template raylet and agent processes. -/
def fixedCpuTimes : CpuTimes := ⟨0.03683138, 0.035913716, 0, 0⟩

/-- The idle worker of the STATS_TEMPLATE snapshot of the test suite. -/
def idleWorker : ProcessStats :=
  { pid := 7174
    create_time := 1614826391.338613
    cmdline := ["ray::IDLE", "", "", "", "", "", "", "", "", "", "", ""]
    cpu_percent := 0
    cpu_times := idleCpuTimes
    memory_info := ⟨55934976, 7026937856⟩
    memory_full_info := some 51428381 }

/-- The raylet process of the STATS_TEMPLATE snapshot. -/
def templateRaylet : ProcessStats :=
  { pid := 7153
    create_time := 1614826390.274854
    cmdline := ["fake raylet cmdline"]
    cpu_percent := 0
    cpu_times := fixedCpuTimes
    memory_info := ⟨18354176, 6921486336⟩
    memory_full_info := none }

/-- The agent process of the STATS_TEMPLATE snapshot. -/
def templateAgent : ProcessStats :=
  { pid := 7154
    create_time := 1614826390.274854
    cmdline := ["fake raylet cmdline"]
    cpu_percent := 0
    cpu_times := fixedCpuTimes
    memory_info := ⟨18354176, 6921486336⟩
    memory_full_info := none }

/-- The STATS_TEMPLATE snapshot of the test suite: one idle worker, one
raylet, one agent, no GPUs, shm 456. -/
def templateSnapshot : Snapshot :=
  { ip := "127.0.0.1"
    cpu := 57.4
    cpus := (8, 4)
    mem := ⟨17179869184, 5723353088, 66.7, 9234341888⟩
    shm := some 456
    workers := [idleWorker]
    raylet := some templateRaylet
    agent := some templateAgent
    bootTime := 1612934656
    disk_io := ⟨100, 100, 100, 100⟩
    disk_io_speed := ⟨100, 100, 100, 100⟩
    disk := [("/", ⟨250790436864, 11316781056, 22748921856, 33.2⟩),
             ("/tmp", ⟨250790436864, 209532035072, 22748921856, 90.2⟩)]
    gpus := []
    network := ⟨13621160960, 11914936320⟩
    network_speed := ⟨8.435062128545095, 7.378462703142336⟩ }

/-- The autoscaler summary used by the test suite: two active node types
(head_node 1, worker-node-0 2), no failed and no pending nodes. -/
def autoRep : AutoscalerReport :=
  ⟨[("head_node", 1), ("worker-node-0", 2)], [], []⟩

/-- The template snapshot with the raylet stats removed, second call of
test_report_stats. -/
def tmplNoRaylet : Snapshot := { templateSnapshot with raylet := none }

/-- The single-GPU sample added in the third call of test_report_stats. -/
def oneGpu : GpuSample :=
  { index := some 0, name := none, utilization_gpu := 1,
    memory_used := 100, memory_total := 1000 }

/-- The template snapshot without raylet and with one indexed GPU. -/
def tmplOneGpu : Snapshot := { tmplNoRaylet with gpus := [oneGpu] }

/-- Records of the first test_report_stats call (full template). -/
def recsA : List Record := (recordStats initState templateSnapshot (some autoRep)).1

/-- Recorder state after the first test_report_stats call. -/
def stA : RecorderState := (recordStats initState templateSnapshot (some autoRep)).2

/-- Records of the second test_report_stats call (raylet removed). -/
def recsB : List Record := (recordStats stA tmplNoRaylet (some autoRep)).1

/-- Recorder state after the second call. -/
def stB : RecorderState := (recordStats stA tmplNoRaylet (some autoRep)).2

/-- Records of the third call (one GPU added). -/
def recsC : List Record := (recordStats stB tmplOneGpu (some autoRep)).1

/-- Recorder state after the third call. -/
def stC : RecorderState := (recordStats stB tmplOneGpu (some autoRep)).2

/-- Records of the fourth call (autoscaler summary removed). -/
def recsD : List Record := (recordStats stC tmplOneGpu none).1

/-- The GPU memory total used by test_report_stats_gpu. -/
def GPU_MEMORY : ℚ := 22731

/-- The five GPU samples of test_report_stats_gpu, with identical memory
total T for the indexed devices: utilizations 0,1,2,3 and memory_used
0,1,2,3 for indices 0..3 (index 3 lacking a name), plus a fifth sample
lacking an index. -/
def gpuScenario (T : ℚ) : List GpuSample :=
  [{ index := some 0, name := some "NVIDIA A10G", utilization_gpu := 0,
     memory_used := 0, memory_total := T },
   { index := some 1, name := some "NVIDIA A10G", utilization_gpu := 1,
     memory_used := 1, memory_total := T },
   { index := some 2, name := some "NVIDIA A10G", utilization_gpu := 2,
     memory_used := 2, memory_total := T },
   { index := some 3, name := none, utilization_gpu := 3,
     memory_used := 3, memory_total := T },
   { index := none, name := some "NVIDIA A10G", utilization_gpu := 3,
     memory_used := 3, memory_total := T }]

/-- The per-device records the aggregator emits for the GPU scenario. -/
def gpuScenRecords (T : ℚ) : List Record :=
  (gpuScenario T).flatMap (gpuRecords "127.0.0.1")

/-- The values of all records of a given gauge name. -/
def valuesOf (nm : String) (rs : List Record) : List ℚ :=
  (rs.filter (fun r => r.gauge.name = nm)).map Record.value

/-- The sum of the values of all records of a given gauge name. -/
def totalOf (nm : String) (rs : List Record) : ℚ :=
  (valuesOf nm rs).sum

/-- The gauge names of the per-device GPU metrics. -/
def gpuGaugeNames : List String :=
  ["node_gpus_available", "node_gpus_utilization", "node_gram_used",
   "node_gram_available"]

/-- The gauge names of the autoscaler cluster metrics. -/
def clusterGaugeNames : List String :=
  ["cluster_active_nodes", "cluster_failed_nodes", "cluster_pending_nodes"]

/-- Whether a record is tagged with the given component name. -/
def compTagged (n : String) (r : Record) : Bool :=
  decide (("Component", n) ∈ r.tags)

/-- The no-name indexed sample of the GPU scenario. -/
def noNameGpu : GpuSample :=
  { index := some 3, name := none, utilization_gpu := 3, memory_used := 3,
    memory_total := 22731 }

/-- An old tracker entry for pid 7175 with create_time 1. -/
def oldEntry : (Nat × ℚ) × WorkerState := ((7175, 1), ⟨5, 50⟩)

/-- A tracker holding only the old entry. -/
def trOld : Tracker := [oldEntry]

/-- A minimal snapshot with no workers, raylet, agent, GPUs or disks. -/
def emptySnap : Snapshot :=
  { ip := "127.0.0.1"
    cpu := 0
    cpus := (1, 1)
    mem := ⟨0, 0, 0, 0⟩
    shm := none
    workers := []
    raylet := none
    agent := none
    bootTime := 0
    disk_io := ⟨0, 0, 0, 0⟩
    disk_io_speed := ⟨0, 0, 0, 0⟩
    disk := []
    gpus := []
    network := ⟨0, 0⟩
    network_speed := ⟨0, 0⟩ }

/-- A worker running task ray::func with non-zero cpu and uss, mirroring the
func_stats process of test_report_per_component_stats. -/
def funcWorker : ProcessStats :=
  { pid := 7175
    create_time := 0
    cmdline := ["ray::func", "", ""]
    cpu_percent := 6
    cpu_times := ⟨0, 0, 0, 0⟩
    memory_info := ⟨55934976, 7026937856⟩
    memory_full_info := some 51428381 }

/-- An unrelated process reusing pid 7175 with a different create_time. -/
def reusedWorker : ProcessStats := { funcWorker with create_time := 2 }

/-- A process whose cmdline does not follow the managed-worker convention,
mirroring the unknown_stats process of test_report_per_component_stats. -/
def unknownWorker : ProcessStats :=
  { pid := 7176
    create_time := 0
    cmdline := ["python mock", "", ""]
    cpu_percent := 6
    cpu_times := ⟨0, 0, 0, 0⟩
    memory_info := ⟨55934976, 7026937856⟩
    memory_full_info := some 51428381 }

/-- Poll 1 of the reset-law scenario: ray::func is alive. -/
def snapWithFunc : Snapshot := { emptySnap with workers := [funcWorker] }

/-- A snapshot containing a non-convention worker. -/
def snapWithUnknown : Snapshot := { emptySnap with workers := [unknownWorker] }

theorem memS_iff {n : String} {l : List String} : memS n l = true ↔ n ∈ l := by
  induction l with
  | nil => simp [memS]
  | cons m ms ih =>
    by_cases h : m = n
    · simp [memS, h]
    · simp [memS, h, ih, Ne.symm h]

theorem bump_cnames (acc : List Comp) (c : Comp) :
    (bump acc c).map Comp.cname =
      if c.cname ∈ acc.map Comp.cname then acc.map Comp.cname
      else acc.map Comp.cname ++ [c.cname] := by
  induction acc with
  | nil => simp [bump]
  | cons e es ih =>
    by_cases h : e.cname = c.cname
    · simp [bump, h]
    · by_cases hm : c.cname ∈ es.map Comp.cname
      · simp [bump, h, ih, hm, Ne.symm h]
      · simp [bump, h, ih, hm, Ne.symm h]

theorem mem_bump_cnames {n : String} {acc : List Comp} {c : Comp} :
    n ∈ (bump acc c).map Comp.cname ↔ n ∈ acc.map Comp.cname ∨ n = c.cname := by
  rw [bump_cnames]
  by_cases hm : c.cname ∈ acc.map Comp.cname
  · simp only [hm, if_true]
    constructor
    · exact fun h => Or.inl h
    · rintro (h | rfl)
      · exact h
      · exact hm
  · simp [hm]

theorem bump_nodup {acc : List Comp} {c : Comp}
    (h : (acc.map Comp.cname).Nodup) : ((bump acc c).map Comp.cname).Nodup := by
  rw [bump_cnames]
  by_cases hm : c.cname ∈ acc.map Comp.cname
  · simpa [hm] using h
  · simp [hm, List.nodup_append, h]

theorem foldl_workerStep_inv (ws : List ProcessStats) (acc : List Comp)
    (hall : ∀ n ∈ acc.map Comp.cname, strStarts rayMarker n = true)
    (hnd : (acc.map Comp.cname).Nodup) :
    (∀ n ∈ (ws.foldl workerStep acc).map Comp.cname, strStarts rayMarker n = true)
      ∧ ((ws.foldl workerStep acc).map Comp.cname).Nodup := by
  induction ws generalizing acc with
  | nil => exact ⟨hall, hnd⟩
  | cons w ws ih =>
    have h1 : ∀ n ∈ (workerStep acc w).map Comp.cname, strStarts rayMarker n = true := by
      intro n hn
      cases hh : w.cmdline.head? with
      | none =>
        simp only [workerStep, hh] at hn
        exact hall n hn
      | some tok =>
        simp only [workerStep, hh] at hn
        by_cases hs : strStarts rayMarker tok = true
        · rw [if_pos hs] at hn
          rcases mem_bump_cnames.1 hn with h | rfl
          · exact hall n h
          · exact hs
        · rw [if_neg hs] at hn
          exact hall n hn
    have h2 : ((workerStep acc w).map Comp.cname).Nodup := by
      cases hh : w.cmdline.head? with
      | none =>
        simpa only [workerStep, hh] using hnd
      | some tok =>
        by_cases hs : strStarts rayMarker tok = true
        · simpa only [workerStep, hh, if_pos hs] using bump_nodup hnd
        · simpa only [workerStep, hh, if_neg hs] using hnd
    simpa using ih (workerStep acc w) h1 h2

theorem workerComps_marker {ws : List ProcessStats} {n : String}
    (h : n ∈ (workerComps ws).map Comp.cname) : strStarts rayMarker n = true :=
  (foldl_workerStep_inv ws [] (by simp) (by simp)).1 n h

theorem workerComps_nodup (ws : List ProcessStats) :
    ((workerComps ws).map Comp.cname).Nodup :=
  (foldl_workerStep_inv ws [] (by simp) (by simp)).2

theorem raylet_not_marker : strStarts rayMarker "raylet" = false := by decide

theorem agent_not_marker : strStarts rayMarker "agent" = false := by decide

theorem componentNames_nodup (s : Snapshot) : (componentNames s).Nodup := by
  have hw := workerComps_nodup s.workers
  have hr : "raylet" ∉ (workerComps s.workers).map Comp.cname := by
    intro h
    have := workerComps_marker h
    rw [raylet_not_marker] at this
    exact Bool.false_ne_true this
  have ha : "agent" ∉ (workerComps s.workers).map Comp.cname := by
    intro h
    have := workerComps_marker h
    rw [agent_not_marker] at this
    exact Bool.false_ne_true this
  unfold componentNames componentUsage
  cases s.raylet <;> cases s.agent <;>
    simp_all [optComp, toComp, List.nodup_append]

theorem mem_nodeRecords_tags {s : Snapshot} {r : Record}
    (h : r ∈ nodeRecords s) : r.tags = [("ip", s.ip)] := by
  rcases List.mem_map.1 h with ⟨e, _, rfl⟩
  rfl

theorem mem_compRecords {ip : String} {c : Comp} {r : Record}
    (h : r ∈ compRecords ip c) :
    r.tags = [("ip", ip), ("Component", c.cname)] ∧
      r.gauge.name ∈ ["component_cpu_percentage", "component_rss_mb",
        "component_uss_mb"] := by
  rcases List.mem_map.1 h with ⟨e, he, rfl⟩
  simp only [List.mem_cons, List.not_mem_nil, or_false] at he
  rcases he with rfl | rfl | rfl
  · exact ⟨rfl, by simp [mkRec]⟩
  · exact ⟨rfl, by simp [mkRec]⟩
  · exact ⟨rfl, by simp [mkRec]⟩

theorem mem_resetRecords {ip n : String} {r : Record}
    (h : r ∈ resetRecords ip n) :
    r.tags = [("ip", ip), ("Component", n)] ∧ r.value = 0 ∧
      r.gauge.name ∈ ["component_uss_mb", "component_cpu_percentage"] := by
  rcases List.mem_map.1 h with ⟨e, he, rfl⟩
  simp only [List.mem_cons, List.not_mem_nil, or_false] at he
  rcases he with rfl | rfl
  · exact ⟨rfl, rfl, by simp [mkRec]⟩
  · exact ⟨rfl, rfl, by simp [mkRec]⟩

theorem mem_gpuRecords_tags {ip : String} {g : GpuSample} {r : Record}
    (h : r ∈ gpuRecords ip g) :
    ∃ i, g.index = some i ∧ r.tags = gpuTags ip i g.name := by
  cases hi : g.index with
  | none => simp [gpuRecords, hi] at h
  | some i =>
    refine ⟨i, rfl, ?_⟩
    simp only [gpuRecords, hi] at h
    rcases List.mem_map.1 h with ⟨e, _, rfl⟩
    rfl

theorem comp_not_mem_gpuTags (ip : String) (i : Nat) (o : Option String)
    (n : String) : ("Component", n) ∉ gpuTags ip i o := by
  cases o <;> simp [gpuTags]

theorem mem_autoscalerRecords_tags {ip : String} {a : Option AutoscalerReport}
    {r : Record} (h : r ∈ autoscalerRecords ip a) :
    ∃ t, r.tags = [("ip", ip), ("node_type", t)] := by
  cases a with
  | none => cases h
  | some rep =>
    simp only [autoscalerRecords, List.mem_append] at h
    rcases h with (h | h) | h <;>
      · rcases List.mem_map.1 h with ⟨e, _, rfl⟩
        exact ⟨e.1, rfl⟩

theorem mem_recordStats_cases {st : RecorderState} {s : Snapshot}
    {a : Option AutoscalerReport} {r : Record}
    (h : r ∈ (recordStats st s a).1) :
    r ∈ nodeRecords s
    ∨ (∃ c ∈ componentUsage s, r ∈ compRecords s.ip c)
    ∨ (∃ n ∈ st.prevComponents.filter
        (fun n => !(memS n ((componentUsage s).map Comp.cname))),
        r ∈ resetRecords s.ip n)
    ∨ (∃ g ∈ s.gpus, r ∈ gpuRecords s.ip g)
    ∨ r ∈ autoscalerRecords s.ip a := by
  simp only [recordStats, List.mem_append, List.mem_flatMap] at h
  rcases h with (((h | ⟨c, hc, hr⟩) | ⟨m, hm, hr⟩) | ⟨g, hg, hr⟩) | h
  · exact Or.inl h
  · exact Or.inr (Or.inl ⟨c, hc, hr⟩)
  · exact Or.inr (Or.inr (Or.inl ⟨m, hm, hr⟩))
  · exact Or.inr (Or.inr (Or.inr (Or.inl ⟨g, hg, hr⟩)))
  · exact Or.inr (Or.inr (Or.inr (Or.inr h)))

theorem comp_tag_mem {st : RecorderState} {s : Snapshot}
    {a : Option AutoscalerReport} {n : String} {r : Record}
    (hr : r ∈ (recordStats st s a).1) (ht : ("Component", n) ∈ r.tags) :
    n ∈ componentNames s ∨ n ∈ st.prevComponents := by
  rcases mem_recordStats_cases hr with h | ⟨c, hc, h⟩ | ⟨m, hm, h⟩ | ⟨g, _, h⟩ | h
  · rw [mem_nodeRecords_tags h] at ht
    simp at ht
  · rw [(mem_compRecords h).1] at ht
    simp at ht
    left
    rw [ht]
    exact List.mem_map.2 ⟨c, hc, rfl⟩
  · rw [(mem_resetRecords h).1] at ht
    simp at ht
    right
    rw [ht]
    exact (List.mem_filter.1 hm).1
  · rcases mem_gpuRecords_tags h with ⟨i, _, htags⟩
    rw [htags] at ht
    exact absurd ht (comp_not_mem_gpuTags s.ip i g.name n)
  · rcases mem_autoscalerRecords_tags h with ⟨t, htags⟩
    rw [htags] at ht
    simp at ht

theorem memS_false_iff {n : String} {l : List String} :
    memS n l = false ↔ n ∉ l := by
  rw [← memS_iff]
  cases memS n l <;> simp

theorem newPrev_subset (prev : List String) (comps : List Comp) (n : String)
    (h : n ∈ newPrev prev comps) : n ∈ comps.map Comp.cname := by
  rcases List.mem_map.1 h with ⟨c, hc, rfl⟩
  exact List.mem_map.2 ⟨c, (List.mem_filter.1 hc).1, rfl⟩

theorem mem_newPrev (prev : List String) (comps : List Comp) (c : Comp)
    (hc : c ∈ comps) (hnz : c.cpu ≠ 0 ∨ c.uss ≠ 0) :
    c.cname ∈ newPrev prev comps := by
  refine List.mem_map.2 ⟨c, List.mem_filter.2 ⟨hc, ?_⟩, rfl⟩
  rcases hnz with h | h <;> simp [h]

theorem recordStats_snd (st : RecorderState) (s : Snapshot)
    (a : Option AutoscalerReport) :
    (recordStats st s a).2 = ⟨newPrev st.prevComponents (componentUsage s)⟩ :=
  rfl

theorem reset_emitted (st : RecorderState) (s : Snapshot)
    (a : Option AutoscalerReport) (n : String)
    (hp : n ∈ st.prevComponents) (habs : n ∉ componentNames s) :
    mkRec "component_uss_mb" 0 [("ip", s.ip), ("Component", n)]
        ∈ (recordStats st s a).1
    ∧ mkRec "component_cpu_percentage" 0 [("ip", s.ip), ("Component", n)]
        ∈ (recordStats st s a).1 := by
  have hf : n ∈ st.prevComponents.filter
      (fun m => !(memS m ((componentUsage s).map Comp.cname))) := by
    refine List.mem_filter.2 ⟨hp, ?_⟩
    have : memS n ((componentUsage s).map Comp.cname) = false :=
      memS_false_iff.2 habs
    simp [this]
  constructor
  · simp only [recordStats, List.mem_append]
    refine Or.inl (Or.inl (Or.inr ?_))
    exact List.mem_flatMap.2 ⟨n, hf, List.mem_map.2 ⟨("component_uss_mb", 0), by simp, rfl⟩⟩
  · simp only [recordStats, List.mem_append]
    refine Or.inl (Or.inl (Or.inr ?_))
    exact List.mem_flatMap.2
      ⟨n, hf, List.mem_map.2 ⟨("component_cpu_percentage", 0), by simp, rfl⟩⟩

theorem optComp_names (o : Option ProcessStats) (nm n : String)
    (h : n ∈ (optComp o nm).map Comp.cname) : n = nm := by
  cases o with
  | none => cases h
  | some p =>
    simp [optComp, toComp] at h
    exact h

/-- C2: for every component name C emitted with non-zero USS/CPU usage in
poll N and absent from the snapshot of poll N+1, the output of poll N+1
contains component_uss_mb and component_cpu_percentage records for C with
value 0, and if C is still absent in poll N+2, the output of poll N+2
contains no records tagged with component C at all. -/
theorem C2_reset_law (st0 : RecorderState) (s1 s2 s3 : Snapshot)
    (a1 a2 a3 : Option AutoscalerReport) (n : String)
    (h1 : ∃ c ∈ componentUsage s1, c.cname = n ∧ (c.cpu ≠ 0 ∨ c.uss ≠ 0))
    (h2 : n ∉ componentNames s2)
    (h3 : n ∉ componentNames s3) :
    mkRec "component_uss_mb" 0 [("ip", s2.ip), ("Component", n)]
        ∈ (recordStats (recordStats st0 s1 a1).2 s2 a2).1
    ∧ mkRec "component_cpu_percentage" 0 [("ip", s2.ip), ("Component", n)]
        ∈ (recordStats (recordStats st0 s1 a1).2 s2 a2).1
    ∧ ∀ r ∈ (recordStats (recordStats (recordStats st0 s1 a1).2 s2 a2).2 s3 a3).1,
        ("Component", n) ∉ r.tags := by
  have hst1 : n ∈ (recordStats st0 s1 a1).2.prevComponents := by
    rcases h1 with ⟨c, hc, hcn, hnz⟩
    rw [recordStats_snd]
    exact hcn ▸ mem_newPrev st0.prevComponents (componentUsage s1) c hc hnz
  have e1 := reset_emitted (recordStats st0 s1 a1).2 s2 a2 n hst1 h2
  have hst2 : n ∉ (recordStats (recordStats st0 s1 a1).2 s2 a2).2.prevComponents := by
    rw [recordStats_snd]
    intro hmem
    exact h2 (newPrev_subset (recordStats st0 s1 a1).2.prevComponents
      (componentUsage s2) n hmem)
  refine ⟨e1.1, e1.2, ?_⟩
  intro r hr ht
  rcases comp_tag_mem hr ht with h | h
  · exact h3 h
  · exact hst2 h

/-- C2 witness: concrete three-poll run in which ray::func has non-zero usage
in poll 1 and is gone from polls 2 and 3. -/
theorem C2_reset_law_witness :
    mkRec "component_uss_mb" 0 [("ip", emptySnap.ip), ("Component", "ray::func")]
        ∈ (recordStats (recordStats initState snapWithFunc none).2 emptySnap none).1
    ∧ mkRec "component_cpu_percentage" 0
        [("ip", emptySnap.ip), ("Component", "ray::func")]
        ∈ (recordStats (recordStats initState snapWithFunc none).2 emptySnap none).1
    ∧ ∀ r ∈ (recordStats (recordStats (recordStats initState snapWithFunc none).2
          emptySnap none).2 emptySnap none).1,
        ("Component", "ray::func") ∉ r.tags :=
  C2_reset_law initState snapWithFunc emptySnap emptySnap none none none
    "ray::func" (by decide) (by decide) (by decide)

/-- C5: a worker process whose first cmdline token does not start with the
managed-worker marker yields no component_uss_mb or component_cpu_percentage
record tagged with a name derived from it: no record at all carries its
Component tag (provided the token is not the fixed raylet or agent role name
and is not pending a reset from an earlier poll). -/
theorem C5_component_filtering (st : RecorderState) (s : Snapshot)
    (a : Option AutoscalerReport) (w : ProcessStats) (tok : String)
    (_hw : w ∈ s.workers) (_htok : w.cmdline.head? = some tok)
    (hns : strStarts rayMarker tok = false)
    (hray : tok ≠ "raylet") (hag : tok ≠ "agent")
    (hp : tok ∉ st.prevComponents) :
    ∀ r ∈ (recordStats st s a).1, ("Component", tok) ∉ r.tags := by
  intro r hrm ht
  rcases comp_tag_mem hrm ht with h | h
  · unfold componentNames componentUsage at h
    rw [List.map_append, List.map_append] at h
    rcases List.mem_append.1 h with h' | hworker
    · rcases List.mem_append.1 h' with hr | ha
      · exact hray (optComp_names s.raylet "raylet" tok hr)
      · exact hag (optComp_names s.agent "agent" tok ha)
    · have := workerComps_marker hworker
      rw [hns] at this
      exact Bool.false_ne_true this
  · exact hp h

/-- C5 witness: the python mock process of the test suite produces no
Component-tagged record; in particular the emitted node cpu record carries
no such tag. -/
theorem C5_component_filtering_witness :
    ("Component", "python mock") ∉
      (mkRec "node_cpu_utilization" snapWithUnknown.cpu
        [("ip", snapWithUnknown.ip)]).tags :=
  C5_component_filtering initState snapWithUnknown none unknownWorker
    "python mock" (by decide) (by decide) (by decide) (by decide) (by decide)
    (by decide)
    (mkRec "node_cpu_utilization" snapWithUnknown.cpu
      [("ip", snapWithUnknown.ip)])
    (by simp [recordStats, nodeRecords, nodeEntries, mkRec,
      snapWithUnknown, emptySnap, unknownWorker])

theorem compTagged_eq_false {n : String} {r : Record}
    (h : ("Component", n) ∉ r.tags) : compTagged n r = false := by
  simp [compTagged, h]

theorem filter_comp_eq_nil {n : String} {l : List Record}
    (h : ∀ r ∈ l, ("Component", n) ∉ r.tags) :
    l.filter (compTagged n) = [] := by
  induction l with
  | nil => rfl
  | cons r rs ih =>
    rw [List.filter_cons, compTagged_eq_false (h r (List.mem_cons_self r rs))]
    exact ih fun r' hr' => h r' (List.mem_cons_of_mem r hr')

theorem filter_comp_nodeRecords (s : Snapshot) (n : String) :
    (nodeRecords s).filter (compTagged n) = [] := by
  refine filter_comp_eq_nil fun r hr => ?_
  rw [mem_nodeRecords_tags hr]
  simp

theorem filter_comp_gpu (ip : String) (gs : List GpuSample) (n : String) :
    (gs.flatMap (gpuRecords ip)).filter (compTagged n) = [] := by
  refine filter_comp_eq_nil fun r hr => ?_
  rcases List.mem_flatMap.1 hr with ⟨g, _, hg⟩
  rcases mem_gpuRecords_tags hg with ⟨i, _, htags⟩
  rw [htags]
  exact comp_not_mem_gpuTags ip i g.name n

theorem filter_comp_auto (ip : String) (a : Option AutoscalerReport)
    (n : String) : (autoscalerRecords ip a).filter (compTagged n) = [] := by
  refine filter_comp_eq_nil fun r hr => ?_
  rcases mem_autoscalerRecords_tags hr with ⟨t, htags⟩
  rw [htags]
  simp

theorem filter_comp_resets (ip : String) (l : List String) (n : String)
    (h : ∀ m ∈ l, m ≠ n) :
    (l.flatMap (resetRecords ip)).filter (compTagged n) = [] := by
  refine filter_comp_eq_nil fun r hr => ?_
  rcases List.mem_flatMap.1 hr with ⟨m, hm, hrm⟩
  rw [(mem_resetRecords hrm).1]
  simp [Ne.symm (h m hm)]

theorem filter_compRecords (ip : String) (c : Comp) (n : String) :
    (compRecords ip c).filter (compTagged n) =
      if c.cname = n then compRecords ip c else [] := by
  by_cases h : c.cname = n
  · subst h
    rw [if_pos rfl]
    have : ∀ r ∈ compRecords ip c, compTagged c.cname r = true := by
      intro r hr
      simp [compTagged, (mem_compRecords hr).1]
    exact List.filter_eq_self.2 this
  · rw [if_neg h]
    refine filter_comp_eq_nil fun r hr => ?_
    rw [(mem_compRecords hr).1]
    simp [Ne.symm h]

theorem filter_flatMap_compRecords (ip n : String) :
    ∀ (comps : List Comp), (comps.map Comp.cname).Nodup →
      ∀ c₀ ∈ comps, c₀.cname = n →
        (comps.flatMap (compRecords ip)).filter (compTagged n) =
          compRecords ip c₀ := by
  intro comps
  induction comps with
  | nil =>
    intro _ c₀ hc₀
    cases hc₀
  | cons c cs ih =>
    intro hnd c₀ hc₀ hn
    rw [List.map_cons] at hnd
    have hnodup := List.nodup_cons.1 hnd
    rw [List.flatMap_cons, List.filter_append]
    rcases List.mem_cons.1 hc₀ with rfl | hmem
    · rw [filter_compRecords, if_pos hn]
      have hrest : (cs.flatMap (compRecords ip)).filter (compTagged n) = [] := by
        have hnotin : ∀ cx ∈ cs, cx.cname ≠ n := by
          intro cx hcx he
          exact hnodup.1 (hn ▸ he ▸ List.mem_map.2 ⟨cx, hcx, rfl⟩)
        refine filter_comp_eq_nil fun r hr => ?_
        rcases List.mem_flatMap.1 hr with ⟨cx, hcx, hrc⟩
        rw [(mem_compRecords hrc).1]
        simp [Ne.symm (hnotin cx hcx)]
      rw [hrest, List.append_nil]
    · have hmemn : n ∈ cs.map Comp.cname :=
        hn ▸ List.mem_map.2 ⟨c₀, hmem, rfl⟩
      have hcne : c.cname ≠ n := fun he => hnodup.1 (he ▸ hmemn)
      rw [filter_compRecords, if_neg hcne, List.nil_append]
      exact ih hnodup.2 c₀ hmem hn

theorem memN_iff {k : Nat} {l : List Nat} : memN k l = true ↔ k ∈ l := by
  induction l with
  | nil => simp [memN]
  | cons m ms ih =>
    by_cases h : m = k
    · simp [memN, h]
    · simp [memN, h, ih, Ne.symm h]

theorem lookupW_setW_self (t : Tracker) (k : Nat × ℚ) (v : WorkerState) :
    lookupW (setW t k v) k = some v := by
  induction t with
  | nil => simp [setW, lookupW]
  | cons e es ih =>
    by_cases h : e.1 = k
    · simp [setW, h, lookupW]
    · simp [setW, h, lookupW, ih]

theorem lookupW_setW_ne (t : Tracker) (k k' : Nat × ℚ) (v : WorkerState)
    (h : k ≠ k') : lookupW (setW t k v) k' = lookupW t k' := by
  induction t with
  | nil => simp [setW, lookupW, h]
  | cons e es ih =>
    by_cases he : e.1 = k
    · simp [setW, he, lookupW, h]
    · simp [setW, he, lookupW, ih]

theorem recordStats_fst (st : RecorderState) (s : Snapshot)
    (a : Option AutoscalerReport) :
    (recordStats st s a).1 =
      nodeRecords s
        ++ (componentUsage s).flatMap (compRecords s.ip)
        ++ (st.prevComponents.filter
            (fun n => !(memS n ((componentUsage s).map Comp.cname)))).flatMap
          (resetRecords s.ip)
        ++ s.gpus.flatMap (gpuRecords s.ip)
        ++ autoscalerRecords s.ip a :=
  rfl

theorem recordStats_filter_comp (st : RecorderState) (s : Snapshot)
    (a : Option AutoscalerReport) (n : String) (hn : n ∈ componentNames s) :
    ∃ c₀, c₀ ∈ componentUsage s ∧ c₀.cname = n ∧
      ((recordStats st s a).1.filter (compTagged n)) = compRecords s.ip c₀ := by
  rcases List.mem_map.1 hn with ⟨c₀, hc₀, hcn⟩
  refine ⟨c₀, hc₀, hcn, ?_⟩
  rw [recordStats_fst, List.filter_append, List.filter_append,
    List.filter_append, List.filter_append]
  rw [filter_comp_nodeRecords, filter_comp_gpu, filter_comp_auto]
  rw [filter_flatMap_compRecords s.ip n (componentUsage s)
    (componentNames_nodup s) c₀ hc₀ hcn]
  rw [filter_comp_resets]
  · simp
  · intro m hm he
    have h2 := (List.mem_filter.1 hm).2
    rw [Bool.not_eq_true', memS_false_iff] at h2
    exact h2 (he ▸ hn)

theorem mem_gpuRecords_name {ip : String} {g : GpuSample} {r : Record}
    (h : r ∈ gpuRecords ip g) : r.gauge.name ∈ gpuGaugeNames := by
  cases hi : g.index with
  | none => simp [gpuRecords, hi] at h
  | some i =>
    simp only [gpuRecords, hi] at h
    rcases List.mem_map.1 h with ⟨e, he, rfl⟩
    simp only [List.mem_cons, List.not_mem_nil, or_false] at he
    rcases he with rfl | rfl | rfl | rfl <;> simp [mkRec, gpuGaugeNames]

theorem mem_autoscalerRecords_name {ip : String} {a : Option AutoscalerReport}
    {r : Record} (h : r ∈ autoscalerRecords ip a) :
    r.gauge.name ∈ clusterGaugeNames := by
  cases a with
  | none => cases h
  | some rep =>
    simp only [autoscalerRecords, List.mem_append] at h
    rcases h with (h | h) | h <;>
      · rcases List.mem_map.1 h with ⟨e, _, rfl⟩
        simp [mkRec, clusterGaugeNames]

theorem mem_nodeRecords_name {s : Snapshot} {r : Record}
    (h : r ∈ nodeRecords s) : r.gauge.name ∉ clusterGaugeNames := by
  rcases List.mem_map.1 h with ⟨e, he, rfl⟩
  cases hs : s.shm <;>
    · simp only [nodeEntries, hs, List.cons_append, List.nil_append] at he
      fin_cases he <;> simp [mkRec, clusterGaugeNames]

/-- C10: every component present in a poll contributes exactly three
per-component gauge records (component_cpu_percentage, component_rss_mb and
component_uss_mb, i.e. rss in addition to the uss/cpu pair); removing the
raylet stats from the template snapshot reduces the record count from 33 to
30, and component_rss_mb appears among the exported metric names. -/
theorem C10_component_triples :
    (∀ (st : RecorderState) (s : Snapshot) (a : Option AutoscalerReport)
      (n : String), n ∈ componentNames s →
        ∃ c₀, c₀ ∈ componentUsage s ∧ c₀.cname = n ∧
          ((recordStats st s a).1.filter (compTagged n)) = compRecords s.ip c₀ ∧
          ((recordStats st s a).1.filter (compTagged n)).map
            (fun r => r.gauge.name) =
            ["component_cpu_percentage", "component_rss_mb", "component_uss_mb"] ∧
          ((recordStats st s a).1.filter (compTagged n)).length = 3)
    ∧ recsA.length = 33 ∧ recsB.length = 30
    ∧ "component_rss_mb" ∈ recsA.map (fun r => r.gauge.name) := by
  refine ⟨?_, by decide, by decide, by decide⟩
  intro st s a n hn
  rcases recordStats_filter_comp st s a n hn with ⟨c₀, h1, h2, h3⟩
  refine ⟨c₀, h1, h2, h3, ?_, ?_⟩
  · rw [h3]
    simp [compRecords, mkRec]
  · rw [h3]
    simp [compRecords]

/-- C10 witness: the raylet component of the template snapshot carries
exactly the three per-component records. -/
theorem C10_component_triples_witness :
    ∃ c₀, c₀ ∈ componentUsage templateSnapshot ∧ c₀.cname = "raylet" ∧
      ((recordStats initState templateSnapshot (some autoRep)).1.filter
        (compTagged "raylet")) = compRecords templateSnapshot.ip c₀ ∧
      ((recordStats initState templateSnapshot (some autoRep)).1.filter
        (compTagged "raylet")).map (fun r => r.gauge.name) =
        ["component_cpu_percentage", "component_rss_mb", "component_uss_mb"] ∧
      ((recordStats initState templateSnapshot (some autoRep)).1.filter
        (compTagged "raylet")).length = 3 :=
  C10_component_triples.1 initState templateSnapshot (some autoRep) "raylet"
    (by decide)

/-- C3 counterexample: in the driving full-snapshot scenario the raylet
component carries three records, not the pair of records the claim
describes, so the output is not node-level gauges plus per-component pairs. -/
theorem C3_counterexample :
    (recsA.filter (compTagged "raylet")).length = 3 ∧
      ¬ (recsA.filter (compTagged "raylet")).length = 2 := by
  constructor
  · decide
  · decide

/-- C3 (amended): for the documented template snapshot together with an
autoscaler summary of 2 active node types, record returns 33 records: the
node-level gauges plus a per-component triple (cpu, rss, uss) for each of
raylet, agent and the idle worker plus 2 autoscaler count gauges, with no
GPU records, and the node_mem_shared_bytes record has value exactly 456. -/
theorem C3_full_snapshot :
    recsA.length = 33
    ∧ valuesOf "node_mem_shared_bytes" recsA = [456]
    ∧ recsA.countP (fun r => decide (r.gauge.name ∈ gpuGaugeNames)) = 0
    ∧ (recsA.filter (compTagged "raylet")).length = 3
    ∧ (recsA.filter (compTagged "agent")).length = 3
    ∧ (recsA.filter (compTagged "ray::IDLE")).length = 3
    ∧ recsA.countP (fun r => r.tags.any (fun p => decide (p.1 = "Component"))) = 9
    ∧ recsA.countP (fun r => decide (r.gauge.name ∈ clusterGaugeNames)) = 2 := by
  refine ⟨?_, ?_, ?_, ?_, ?_, ?_, ?_, ?_⟩ <;> decide

/-- C1 counterexample: in the five-sample GPU scenario the aggregator emits
availability value 1 for the device with utilization 1 (the claim requires
0), so the total of the node_gpus_available values is 4 and not 1. -/
theorem C1_counterexample :
    valuesOf "node_gpus_available" (gpuScenRecords GPU_MEMORY) = [1, 1, 1, 1]
    ∧ totalOf "node_gpus_available" (gpuScenRecords GPU_MEMORY) = 4
    ∧ ¬ totalOf "node_gpus_available" (gpuScenRecords GPU_MEMORY) = 1 := by
  have h4 : totalOf "node_gpus_available" (gpuScenRecords GPU_MEMORY) = 4 := by
    simp [totalOf, valuesOf, gpuScenRecords, gpuScenario, gpuRecords,
      gpuTags, mkRec]
    norm_num
  refine ⟨by decide, h4, ?_⟩
  rw [h4]
  norm_num

/-- C1 (amended): for every GPU sample that has an index the aggregator
emits an availability value of 1 (one record per physical device,
independent of utilization), so in the scenario with 4 indexed devices with
utilization [0,1,2,3] and memory_used [0,1,2,3] out of identical total T
plus a 5th sample lacking index, the node_gpus_available total is 4,
node_gpus_utilization is 6, node_gram_used is 6, node_gram_available is
4T - 6, and the index-less sample contributes to none of these totals and
emits no per-device record. -/
theorem C1_gpu_totals (T : ℚ) :
    (gpuScenRecords T).length = 16
    ∧ valuesOf "node_gpus_available" (gpuScenRecords T) = [1, 1, 1, 1]
    ∧ totalOf "node_gpus_available" (gpuScenRecords T) = 4
    ∧ totalOf "node_gpus_utilization" (gpuScenRecords T) = 6
    ∧ totalOf "node_gram_used" (gpuScenRecords T) = 6
    ∧ totalOf "node_gram_available" (gpuScenRecords T) = 4 * T - 6
    ∧ gpuRecords "127.0.0.1"
        { index := none, name := some "NVIDIA A10G", utilization_gpu := 3,
          memory_used := 3, memory_total := T } = [] := by
  refine ⟨?_, ?_, ?_, ?_, ?_, ?_, rfl⟩
  · simp [gpuScenRecords, gpuScenario, gpuRecords, gpuTags, mkRec]
  · simp [valuesOf, gpuScenRecords, gpuScenario, gpuRecords, gpuTags, mkRec]
  · simp [totalOf, valuesOf, gpuScenRecords, gpuScenario, gpuRecords,
      gpuTags, mkRec]
    norm_num
  · simp [totalOf, valuesOf, gpuScenRecords, gpuScenario, gpuRecords,
      gpuTags, mkRec]
    norm_num
  · simp [totalOf, valuesOf, gpuScenRecords, gpuScenario, gpuRecords,
      gpuTags, mkRec]
    norm_num
  · simp [totalOf, valuesOf, gpuScenRecords, gpuScenario, gpuRecords,
      gpuTags, mkRec]
    ring

/-- C7: for every GPU sample carrying an index, a per-device record is
emitted for each of the four device-scoped metrics; when the sample has no
name its tag set is exactly ip and GpuIndex (the GpuDeviceName tag is
omitted), and when it has a name the tag set is exactly ip, GpuIndex and
GpuDeviceName. -/
theorem C7_gpu_name_tag (ip : String) (g : GpuSample) (i : Nat)
    (hi : g.index = some i) :
    (gpuRecords ip g).map (fun r => r.gauge.name) =
      ["node_gpus_available", "node_gpus_utilization", "node_gram_used",
        "node_gram_available"]
    ∧ (g.name = none →
        ∀ r ∈ gpuRecords ip g,
          r.tags = [("ip", ip), ("GpuIndex", toString i)])
    ∧ (∀ nm, g.name = some nm →
        ∀ r ∈ gpuRecords ip g,
          r.tags = [("ip", ip), ("GpuIndex", toString i),
            ("GpuDeviceName", nm)]) := by
  refine ⟨?_, ?_, ?_⟩
  · simp [gpuRecords, hi, mkRec]
  · intro hnm r hr
    simp only [gpuRecords, hi] at hr
    rcases List.mem_map.1 hr with ⟨e, _, rfl⟩
    simp [mkRec, gpuTags, hnm]
  · intro nm hnm r hr
    simp only [gpuRecords, hi] at hr
    rcases List.mem_map.1 hr with ⟨e, _, rfl⟩
    simp [mkRec, gpuTags, hnm]

/-- C7 witness: the no-name sample at index 3 still yields the four
device-scoped records, tagged only with ip and GpuIndex. -/
theorem C7_gpu_name_tag_witness :
    (gpuRecords "127.0.0.1" noNameGpu).map (fun r => r.gauge.name) =
      ["node_gpus_available", "node_gpus_utilization", "node_gram_used",
        "node_gram_available"]
    ∧ (mkRec "node_gpus_available" 1 (gpuTags "127.0.0.1" 3 none)).tags =
        [("ip", "127.0.0.1"), ("GpuIndex", toString 3)] :=
  ⟨(C7_gpu_name_tag "127.0.0.1" noNameGpu 3 rfl).1,
   (C7_gpu_name_tag "127.0.0.1" noNameGpu 3 rfl).2.1 rfl
     (mkRec "node_gpus_available" 1 (gpuTags "127.0.0.1" 3 none))
     (by simp [gpuRecords, noNameGpu])⟩

/-- C8: when cluster stats contain an autoscaler summary, record emits the
per-node-type count gauges in addition to the summary-independent records;
when the summary is absent these gauges are simply missing (no record of a
cluster gauge name is emitted, no zero placeholder), and for the driving
test data removing the summary decreases the record count by exactly 2. -/
theorem C8_autoscaler_optional :
    (∀ (st : RecorderState) (s : Snapshot) (rep : AutoscalerReport),
      (recordStats st s (some rep)).1 =
        (recordStats st s none).1 ++ autoscalerRecords s.ip (some rep))
    ∧ (∀ (st : RecorderState) (s : Snapshot),
        ∀ r ∈ (recordStats st s none).1, r.gauge.name ∉ clusterGaugeNames)
    ∧ (autoscalerRecords templateSnapshot.ip (some autoRep)).length = 2
    ∧ recsA.length = (recordStats initState templateSnapshot none).1.length + 2 := by
  refine ⟨?_, ?_, by decide, by decide⟩
  · intro st s rep
    rw [recordStats_fst, recordStats_fst]
    show _ = _ ++ ([] : List Record) ++ _
    rw [List.append_nil]
  · intro st s r hr
    rcases mem_recordStats_cases hr with h | ⟨c, _, h⟩ | ⟨m, _, h⟩ | ⟨g, _, h⟩ | h
    · exact mem_nodeRecords_name h
    · have := (mem_compRecords h).2
      simp only [List.mem_cons, List.not_mem_nil, or_false] at this
      rcases this with he | he | he <;> rw [he] <;> decide
    · have := (mem_resetRecords h).2.2
      simp only [List.mem_cons, List.not_mem_nil, or_false] at this
      rcases this with he | he <;> rw [he] <;> decide
    · have := mem_gpuRecords_name h
      simp only [gpuGaugeNames, List.mem_cons, List.not_mem_nil, or_false] at this
      rcases this with he | he | he | he <;> rw [he] <;> decide
    · cases h

/-- C8 witness: the template scenario with the two-active-node summary. -/
theorem C8_autoscaler_optional_witness :
    (recordStats initState templateSnapshot (some autoRep)).1 =
      (recordStats initState templateSnapshot none).1 ++
        autoscalerRecords templateSnapshot.ip (some autoRep)
    ∧ (mkRec "node_mem_shared_bytes" 456 [("ip", "127.0.0.1")]).gauge.name ∉
        clusterGaugeNames :=
  ⟨C8_autoscaler_optional.1 initState templateSnapshot autoRep,
   C8_autoscaler_optional.2.1 initState templateSnapshot
     (mkRec "node_mem_shared_bytes" 456 [("ip", "127.0.0.1")])
     (by simp [recordStats_fst, nodeRecords, nodeEntries, templateSnapshot, mkRec])⟩

/-- C4: a process observed by the worker tracker for the first time (no
prior WorkerState under its (pid, create_time) key) is reported with
cpu_percent exactly 0, and its current cumulative CPU total and wall time
are stored as the baseline for the next poll. -/
theorem C4_first_poll_zero (t : Tracker) (now : ℚ) (p : ProcessStats)
    (h : lookupW t (p.pid, p.create_time) = none) :
    (trackProc t now p).1 = 0
    ∧ lookupW (trackProc t now p).2 (p.pid, p.create_time) =
        some ⟨cpuTotal p, now⟩
    ∧ (trackBatch t now [p]).1 = [(p, 0)] := by
  refine ⟨?_, ?_, ?_⟩
  · simp [trackProc, h]
  · simp [trackProc, h, lookupW_setW_self]
  · simp [trackBatch, trackProc, h]

/-- C4 witness: a fresh tracker reports 0 for the first poll of a worker. -/
theorem C4_first_poll_zero_witness :
    (trackProc ([] : Tracker) 100 funcWorker).1 = 0
    ∧ lookupW (trackProc ([] : Tracker) 100 funcWorker).2
        (funcWorker.pid, funcWorker.create_time) =
        some ⟨cpuTotal funcWorker, 100⟩
    ∧ (trackBatch ([] : Tracker) 100 [funcWorker]).1 = [(funcWorker, 0)] :=
  C4_first_poll_zero [] 100 funcWorker (by decide)

/-- C9: the worker tracker keys its state by the (pid, create_time) pair:
a process whose key is new reports a first-poll cpu_percent of 0 even if an
entry with the same pid but different create_time exists, that other entry
is left untouched by the step, and after a batch every tracked key whose
pid is absent from the current process list has been deleted. -/
theorem C9_worker_identity (t : Tracker) (now : ℚ) (p : ProcessStats)
    (t1 : ℚ) (hnew : lookupW t (p.pid, p.create_time) = none)
    (hne : t1 ≠ p.create_time) :
    (trackProc t now p).1 = 0
    ∧ lookupW (trackProc t now p).2 (p.pid, t1) = lookupW t (p.pid, t1)
    ∧ ∀ (ps : List ProcessStats) (e : (Nat × ℚ) × WorkerState),
        e ∈ (updateWorkers t now ps).2 → e.1.1 ∈ ps.map ProcessStats.pid := by
  refine ⟨by simp [trackProc, hnew], ?_, ?_⟩
  · simp only [trackProc, hnew]
    exact lookupW_setW_ne t (p.pid, p.create_time) (p.pid, t1)
      ⟨cpuTotal p, now⟩ (fun he => hne (congrArg Prod.snd he).symm)
  · intro ps e he
    simp only [updateWorkers] at he
    exact memN_iff.1 (List.mem_filter.1 he).2

/-- C9 witness: pid 7175 is reused with a new create_time: the step reports
0, keeps the old entry intact, and cleanup only retains live pids. -/
theorem C9_worker_identity_witness :
    (trackProc trOld 100 reusedWorker).1 = 0
    ∧ lookupW (trackProc trOld 100 reusedWorker).2 (reusedWorker.pid, 1) =
        lookupW trOld (reusedWorker.pid, 1)
    ∧ reusedWorker.pid ∈ [reusedWorker].map ProcessStats.pid :=
  ⟨(C9_worker_identity trOld 100 reusedWorker 1 (by decide) (by decide)).1,
   (C9_worker_identity trOld 100 reusedWorker 1 (by decide) (by decide)).2.1,
   (C9_worker_identity trOld 100 reusedWorker 1 (by decide) (by decide)).2.2
     [reusedWorker]
     ((reusedWorker.pid, reusedWorker.create_time), ⟨cpuTotal reusedWorker, 100⟩)
     (by simp [updateWorkers, trackBatch, trackProc, lookupW, setW, memN,
       trOld, oldEntry, reusedWorker, funcWorker])⟩

/-- C6: when the in-Kubernetes-pod flag is true and the enable-K8s-disk-usage
override is false, the disk-usage probe reports the dummy values total 1 and
free 1 for the root filesystem; whenever the override is enabled, or the pod
environment is not detected, the probed values are returned unchanged. -/
theorem C6_k8s_disk_usage (probe : List (String × DiskUsage)) :
    get_disk_usage true false probe = [("/", dummyDiskUsage)]
    ∧ dummyDiskUsage.total = 1 ∧ dummyDiskUsage.free = 1
    ∧ get_disk_usage true true probe = probe
    ∧ (∀ b : Bool, get_disk_usage false b probe = probe) := by
  refine ⟨rfl, rfl, rfl, rfl, ?_⟩
  intro b
  cases b <;> rfl
